import Mathlib

/-!
Verification of the IPTV proxy server (Express application in `src/index.js`
with middleware and utility modules).

The development shallowly embeds the request handlers and helpers of the
server as pure Lean functions:

* JavaScript `Array.prototype.slice` (including its negative-index clamping)
  is embedded as `jsSlice`;
* `parseInt(req.query.page) || 1` is embedded as `resolvePage` over the
  already-parsed value (`none` standing for `NaN`, i.e. an absent or
  non-numeric parameter);
* `Array.prototype.sort` with the comparator `(a, b) => b.added - a.added`
  (used both with `parseInt` and `new Date` on the `added` field, which we
  model as an integer key) is embedded as the stable insertion sort
  `sortByAddedDesc` — ECMAScript sorts are stable, and a stable sort with a
  total comparator has a unique result, so the embedding is faithful;
* each content endpoint becomes a function from the upstream list and the
  page parameter to the JSON response it serialises;
* the Mongo-backed user and profile stores become Lean lists, `findOne`
  becomes `List.find?`, `deleteOne` erases the first match, and `save` on a
  fetched document rewrites the store entry with the matching id;
* fallible effects (bcrypt, SendGrid, axios) are threaded as explicit
  success/failure parameters, and upstream HTTP calls are recorded in an
  explicit call log so that "the upstream API was not contacted" and "the
  request is not retried" are provable statements.
-/

/-- An item returned by the upstream IPTV API (`get_vod_streams`,
`get_series`, `get_live_streams`).  Only the fields the server inspects are
kept: `name` (searched) and `added` (the date-like sort key, modelling
`parseInt(x.added)` / `new Date(x.added)` as an integer).  `sid` is the
upstream stream id, used only to distinguish items. -/
structure Item where
  sid : Nat
  name : String
  added : Int
deriving DecidableEq, Repr, Inhabited

/-- Clamped start index of `Array.prototype.slice(a, b)` per ECMAScript:
negative indices count from the end, results are clamped to `[0, len]`. -/
def sliceStart (len : Nat) (a : Int) : Nat :=
  (if a < 0 then max ((len : Int) + a) 0 else min a (len : Int)).toNat

/-- Clamped end index of `Array.prototype.slice(a, b)`; same clamping rule
as `sliceStart`. -/
def sliceStop (len : Nat) (b : Int) : Nat :=
  (if b < 0 then max ((len : Int) + b) 0 else min b (len : Int)).toNat

/-- Embedding of `l.slice(a, b)` for a JavaScript array `l`. -/
def jsSlice (l : List α) (a b : Int) : List α :=
  (l.take (sliceStop l.length b)).drop (sliceStart l.length a)

/-- Embedding of `parseInt(req.query.page) || 1`: `none` models `NaN`
(absent or unparsable parameter) and `0` is falsy, both yielding `1`;
every other integer — including negative ones — is accepted as is. -/
def resolvePage : Option Int → Int
  | none => 1
  | some v => if v = 0 then 1 else v

/-- Stable insertion of an item into a list sorted by `added` descending:
the inserted element goes before elements with the same key, matching the
behaviour of the (stable) ECMAScript sort for elements comparing equal. -/
def insertByAdded (x : Item) : List Item → List Item
  | [] => [x]
  | y :: ys => if y.added ≤ x.added then x :: y :: ys else y :: insertByAdded x ys

/-- Embedding of `arr.sort((a, b) => b.added - a.added)` (descending by the
`added` key, stable). -/
def sortByAddedDesc : List Item → List Item
  | [] => []
  | x :: xs => insertByAdded x (sortByAddedDesc xs)

/-- Embedding of `Math.ceil(n / 10)` for a natural `n` (array lengths are
naturals, so the JS float ceiling coincides with natural ceiling
division). -/
def ceilDiv10 (n : Nat) : Nat := (n + 9) / 10

/-- The body of every paginated JSON response:
`{ page, total, totalPages, data }`. -/
structure PageResp where
  page : Int
  total : Nat
  totalPages : Nat
  data : List Item
deriving DecidableEq, Repr

/-- The slice a paginated endpoint returns for resolved page `p`:
`list.slice((page - 1) * 10, page * 10)`. -/
def pageData (l : List Item) (p : Int) : List Item :=
  jsSlice l ((p - 1) * 10) (p * 10)

/-- Handler core of `GET /vods`, `GET /series`, `GET /live` and the
`/category/:categoryId` variants, given the list fetched from the upstream
API and the raw `page` query parameter. -/
def listPage (l : List Item) (rawPage : Option Int) : PageResp :=
  let page := resolvePage rawPage
  { page := page
    total := l.length
    totalPages := ceilDiv10 l.length
    data := pageData l page }

/-- Handler core of `GET /vods/recent`: sort the full upstream list by
`added` descending, `slice(0, 50)`, then paginate; `total` and
`totalPages` are computed from the truncated list. -/
def vodsRecentPage (l : List Item) (rawPage : Option Int) : PageResp :=
  let page := resolvePage rawPage
  let recentVods := jsSlice (sortByAddedDesc l) 0 50
  { page := page
    total := recentVods.length
    totalPages := ceilDiv10 recentVods.length
    data := pageData recentVods page }

/-- Handler core of `GET /series/recent`: `slice(0, 50)` of the upstream
list FIRST, then sort those 50 by `added` descending, then paginate
(`limitedSeries` and `sortedSeries` alias the same in-place-sorted array,
so `total` uses the same length). -/
def seriesRecentPage (l : List Item) (rawPage : Option Int) : PageResp :=
  let page := resolvePage rawPage
  let limitedSeries := jsSlice l 0 50
  let sortedSeries := sortByAddedDesc limitedSeries
  { page := page
    total := limitedSeries.length
    totalPages := ceilDiv10 limitedSeries.length
    data := pageData sortedSeries page }

/-- Handler core of `GET /live/recent`; structurally identical to
`seriesRecentPage` (truncate to the first 50, then sort, then paginate). -/
def liveRecentPage (l : List Item) (rawPage : Option Int) : PageResp :=
  let page := resolvePage rawPage
  let limitedLiveStreams := jsSlice l 0 50
  let sortedLiveStreams := sortByAddedDesc limitedLiveStreams
  { page := page
    total := limitedLiveStreams.length
    totalPages := ceilDiv10 limitedLiveStreams.length
    data := pageData sortedLiveStreams page }

/-- The claim's description of a `/recent` endpoint, written from the
spec/claim wording: sort the FULL upstream list by `added` descending,
truncate to the first 50, then paginate.  (To be compared with the three
handler embeddings above.) -/
def recentSpec (l : List Item) (rawPage : Option Int) : List Item :=
  pageData ((sortByAddedDesc l).take 50) (resolvePage rawPage)

/-- The set of positions of the underlying list occupied by
`l.slice((p-1)*10, p*10)`: the clamped half-open index interval. -/
def pagePositions (l : List Item) (p : Int) : Finset Nat :=
  Finset.Ico (sliceStart l.length ((p - 1) * 10)) (sliceStop l.length (p * 10))

/-- Concatenation, in order, of the data slices of pages `1, 2, ...,
totalPages` of a list endpoint. -/
def joinPages (l : List Item) : List Item :=
  (List.range (ceilDiv10 l.length)).flatMap fun k => pageData l ((k : Int) + 1)

/-!
### Authentication middleware (`middlewares.js`)

`validateApiKey` compares the `x-api-key` header with the `API_KEY`
environment variable (`===` on possibly-undefined values, modelled as
`Option String` equality) and either calls `next()` or ends the request
with 403.  `authenticateToken` extracts `authHeader?.split(" ")[1]`,
answers 401 when it is nullish, and otherwise verifies it as a JWT —
verification is modelled by an oracle `verify : String → Option Nat`
returning the decoded user id on success.
-/

/-- Embedding of `req.headers["authorization"]?.split(" ")[1]`. -/
def extractToken : Option String → Option String
  | none => none
  | some h => (h.splitOn " ").get? 1

/-- The headers of an incoming request that the middleware chain reads. -/
structure AuthReq where
  apiKeyHeader : Option String
  authHeader : Option String
deriving DecidableEq, Repr

/-- How a request to a protected route ends, as decided by the
`validateApiKey` / `authenticateToken` middleware chain. -/
inductive AuthOutcome where
  /-- `validateApiKey` answered `403 {"error": "API Key inválida"}`. -/
  | forbiddenKey
  /-- `authenticateToken` answered `res.sendStatus(401)` (nullish token). -/
  | missingToken
  /-- `jwt.verify` failed and `authenticateToken` answered 403. -/
  | invalidToken
  /-- both middlewares called `next()`; the handler runs as `userId`. -/
  | handlerRan (userId : Nat)
deriving DecidableEq, Repr

/-- HTTP status produced by each middleware outcome (the handler itself is
abstracted as returning 200). -/
def AuthOutcome.status : AuthOutcome → Nat
  | .forbiddenKey => 403
  | .missingToken => 401
  | .invalidToken => 403
  | .handlerRan _ => 200

/-- Whether the route handler actually ran. -/
def AuthOutcome.ran : AuthOutcome → Bool
  | .handlerRan _ => true
  | _ => false

/-- The middleware chain `validateApiKey, authenticateToken` guarding every
profile and content route: `configuredKey` is the `API_KEY` environment
value, `verify` the JWT verification oracle. -/
def protectedRoute (configuredKey : Option String) (verify : String → Option Nat)
    (req : AuthReq) : AuthOutcome :=
  if req.apiKeyHeader = configuredKey then
    match extractToken req.authHeader with
    | none => .missingToken
    | some t =>
      match verify t with
      | none => .invalidToken
      | some userId => .handlerRan userId
  else .forbiddenKey

/-!
### Profiles (`utils.js` and the `/profiles` routes)
-/

/-- A stored profile document: credentials for one upstream IPTV account,
owned by the user `userId`. -/
structure ProfileRec where
  pid : Nat
  userId : Nat
  url : String
  username : String
  password : String
  name : String
deriving DecidableEq, Repr

/-- Embedding of `getProfileParams`: `Profile.findOne({_id: profileId,
userId: req.user.userId})`, throwing when no document matches. -/
def getProfileParams (profileId : Nat) (authUserId : Nat)
    (db : List ProfileRec) : Except String ProfileRec :=
  match db.find? (fun p => p.pid == profileId && p.userId == authUserId) with
  | none => .error "Perfil no encontrado o no autorizado"
  | some p => .ok p

/-- Embedding of the `GET /profiles` handler body:
`Profile.find({userId: req.user.userId})`. -/
def getProfiles (authUserId : Nat) (db : List ProfileRec) : List ProfileRec :=
  db.filter (fun p => p.userId == authUserId)

/-- Embedding of the `GET /profiles/:profileId` handler body: `findOne` on
`{_id, userId}`, answering 404 when nothing matches. -/
def getProfileById (profileId : Nat) (authUserId : Nat)
    (db : List ProfileRec) : Except (Nat × String) ProfileRec :=
  match db.find? (fun p => p.pid == profileId && p.userId == authUserId) with
  | none => .error (404, "Perfil no encontrado")
  | some p => .ok p

/-!
### Upstream fetches and the content endpoints (`utils.js` `getFromApi`,
the list endpoints and `GET /search`)

`fetch action` stands for the single `axios.get` issued by `getFromApi`
for that `action`; `.error` means the HTTP request failed (in which case
`getFromApi` rethrows `"Error al comunicarse con la API IPTV"`).  Each
endpoint returns its response together with the list of upstream actions
it requested, in order, so that retries (or their absence) are visible.
-/

/-- Response of a single-fetch content endpoint. -/
inductive ApiResponse where
  /-- 200 with a paginated body. -/
  | ok (resp : PageResp)
  /-- `res.status(500).json({ error: msg })`. -/
  | err (status : Nat) (error : String)
deriving DecidableEq, Repr

/-- Generic single-fetch paginated content endpoint (`GET /vods`,
`GET /series`, `GET /live` and their `/category` variants): one upstream
request for `action`; on failure the `catch` branch answers 500 with a
JSON `error` field, with no retry. -/
def contentEndpoint (fetch : String → Except String (List Item))
    (action : String) (errMsg : String) (rawPage : Option Int) :
    ApiResponse × List String :=
  match fetch action with
  | .error _ => (.err 500 errMsg, [action])
  | .ok items => (.ok (listPage items rawPage), [action])

/-- Embedding of `name.toLowerCase()` (per-character lowering; the server
only ever compares names this way). -/
def jsToLower (s : String) : String := s.map Char.toLower

/-- Embedding of `haystack.includes(needle)`. -/
def jsIncludes (haystack needle : String) : Bool :=
  decide (needle.toList <:+: haystack.toList)

/-- The filter predicate of `GET /search`:
`item.name.toLowerCase().includes(query.toLowerCase())`. -/
def searchMatches (query : String) (item : Item) : Bool :=
  jsIncludes (jsToLower item.name) (jsToLower query)

/-- Response of `GET /search`. -/
inductive SearchResponse where
  /-- 400, the `q` parameter was missing (or empty, which is also falsy). -/
  | badRequest (error : String)
  /-- 500, some upstream request failed. -/
  | err (status : Nat) (error : String)
  /-- 200 with the three filtered collections. -/
  | results (query : String) (liveStreams movies series : List Item)
deriving DecidableEq, Repr

/-- Embedding of the `GET /search` handler: reject a falsy `q` with 400
before any upstream request; otherwise issue the three requests
(`Promise.all`), fail the whole request with 500 if any of them fails, and
otherwise filter each collection by the case-insensitive substring
predicate. -/
def searchEndpoint (q : Option String) (fetch : String → Except String (List Item)) :
    SearchResponse × List String :=
  match q with
  | none => (.badRequest "Debe proporcionar un término de búsqueda (q)", [])
  | some query =>
    if query = "" then
      (.badRequest "Debe proporcionar un término de búsqueda (q)", [])
    else
      let calls := ["get_live_streams", "get_vod_streams", "get_series"]
      match fetch "get_live_streams", fetch "get_vod_streams", fetch "get_series" with
      | .ok liveStreams, .ok movies, .ok series =>
        (.results query
          (liveStreams.filter (searchMatches query))
          (movies.filter (searchMatches query))
          (series.filter (searchMatches query)), calls)
      | _, _, _ => (.err 500 "Error al realizar la búsqueda", calls)

/-!
### User accounts and verification codes (`utils.js` and the account
routes of `index.js`)

Verification codes travel as strings in the application
(`Math.floor(...).toString()` stored in `verificationToken`, compared by
`findOne({verificationToken: code})`).  Since `Nat.repr` is injective on
the generated range we keep the numeric value in the store and convert
with `Nat.repr` where the string view matters.  `Math.random()` is
modelled by an arbitrary stream `rand : Nat → Nat` of draws with
`rand i < 900000` standing for `Math.floor(Math.random() * 900000)`, and
the unbounded `do … while` loop carries explicit fuel: `none` means the
loop has not returned within the allotted iterations.
-/

/-- A stored user document (the fields of `userSchema`). -/
structure UserRec where
  uid : Nat
  username : String
  email : String
  password : String
  firstName : String
  lastName : String
  verificationToken : Option Nat := none
  verificationExpires : Option Int := none
  isVerified : Bool := false
deriving DecidableEq, Repr

/-- One `do … while` loop of `generateUniqueVerificationCode`: draw
`code = 100000 + Math.floor(Math.random() * 900000)` (the `i`-th draw of
the stream), look it up with `User.findOne({verificationToken: code})`,
and repeat while some user already holds it. -/
def genLoop (rand : Nat → Nat) (users : List UserRec) : Nat → Nat → Option Nat
  | _, 0 => none
  | i, fuel + 1 =>
    let code := 100000 + rand i
    match users.find? (fun u => u.verificationToken == some code) with
    | some _ => genLoop rand users (i + 1) fuel
    | none => some code

/-- Embedding of `generateUniqueVerificationCode(User)` starting at the
first draw of the random stream. -/
def generateUniqueVerificationCode (rand : Nat → Nat) (users : List UserRec)
    (fuel : Nat) : Option Nat :=
  genLoop rand users 0 fuel

/-- `user.save()` on a document fetched from the store: replace the entry
with the matching `_id`. -/
def saveUser (store : List UserRec) (u : UserRec) : List UserRec :=
  store.map (fun v => if v.uid == u.uid then u else v)

/-- The request body of `POST /register`. -/
structure RegisterReq where
  username : String
  password : String
  email : String
  firstName : String
  lastName : String
deriving DecidableEq, Repr

/-- Embedding of the `POST /register` handler.  `hash` is `bcrypt.hash`,
`saveOk` whether `user.save()` succeeds (a failed save rejects inside the
bcrypt callback, so no response is ever sent: `none`), `emailOk` whether
`sendEmail` succeeds, `now` the current epoch milliseconds and `newUid`
the id Mongo assigns to the new document.  Returns the response status
(with its message) and the resulting store. -/
def register (store : List UserRec) (req : RegisterReq) (hash : String → String)
    (rand : Nat → Nat) (fuel : Nat) (saveOk emailOk : Bool) (now : Int)
    (newUid : Nat) : Option (Nat × String) × List UserRec :=
  if req.username = "" ∨ req.password = "" ∨ req.email = "" ∨
      req.firstName = "" ∨ req.lastName = "" then
    (some (400, "Todos los campos son requeridos"), store)
  else if (store.find? (fun u => u.username == req.username)).isSome then
    (some (400, "El usuario ya existe"), store)
  else
    match generateUniqueVerificationCode rand store fuel with
    | none => (none, store)
    | some verificationCode =>
      let user : UserRec :=
        { uid := newUid
          username := req.username
          password := hash req.password
          email := req.email
          firstName := req.firstName
          lastName := req.lastName
          verificationToken := some verificationCode
          verificationExpires := some (now + 10 * 60 * 1000)
          isVerified := false }
      if saveOk then
        let saved := store ++ [user]
        if emailOk then
          (some (201, "Usuario registrado exitosamente. Por favor, verifica tu correo para activar tu cuenta."), saved)
        else
          (some (500, "Error al enviar el correo de verificación. Tu cuenta no ha sido creada."),
            saved.eraseP (fun u => u.email == req.email))
      else (none, store)

/-- Embedding of `POST /resend-verification`: find the user by email,
refuse when absent or already verified, otherwise issue a fresh code and
expiry and save them; the status depends on the verification email being
sent. -/
def resendVerification (store : List UserRec) (email : String)
    (rand : Nat → Nat) (fuel : Nat) (emailOk : Bool) (now : Int) :
    Option Nat × List UserRec :=
  if email = "" then (some 400, store)
  else
    match store.find? (fun u => u.email == email) with
    | none => (some 404, store)
    | some u =>
      if u.isVerified then (some 400, store)
      else
        match generateUniqueVerificationCode rand store fuel with
        | none => (none, store)
        | some newVerificationCode =>
          let u' := { u with
            verificationToken := some newVerificationCode
            verificationExpires := some (now + 10 * 60 * 1000) }
          (some (if emailOk then 200 else 500), saveUser store u')

/-- Embedding of `POST /forgot-password`: like `resendVerification` but
without the `isVerified` refusal. -/
def forgotPassword (store : List UserRec) (email : String)
    (rand : Nat → Nat) (fuel : Nat) (emailOk : Bool) (now : Int) :
    Option Nat × List UserRec :=
  if email = "" then (some 400, store)
  else
    match store.find? (fun u => u.email == email) with
    | none => (some 404, store)
    | some u =>
      match generateUniqueVerificationCode rand store fuel with
      | none => (none, store)
      | some verificationCode =>
        let u' := { u with
          verificationToken := some verificationCode
          verificationExpires := some (now + 10 * 60 * 1000) }
        (some (if emailOk then 200 else 500), saveUser store u')

/-- Embedding of the `POST /verify` handler: find the user holding the
submitted code, check expiry (`verificationExpires && now > …`), mark the
account verified, null out the code fields, save, then send the
congratulation email (a failure there is caught and answered 500 — after
the save). -/
def verifyAccount (store : List UserRec) (code : Option Nat) (now : Int)
    (emailOk : Bool) : Nat × List UserRec :=
  match code with
  | none => (400, store)
  | some c =>
    match store.find? (fun u => u.verificationToken == some c) with
    | none => (400, store)
    | some u =>
      let expired : Bool :=
        match u.verificationExpires with
        | some exp => decide (now > exp)
        | none => false
      if expired then
        (400, store)
      else
        let u' := { u with
          isVerified := true
          verificationToken := none
          verificationExpires := none }
        ((if emailOk then 200 else 500), saveUser store u')

/-- Embedding of the `POST /reset-password` handler, after
`authenticateResetToken` has placed the decoded `userId` on the request:
refuse an empty password, 404 an unknown user, refuse with 400 when
`verificationToken` is already null, otherwise hash the new password,
null out the code fields and save.  The confirmation email is sent inside
the bcrypt callback with no surrounding catch, so a failure there leaves
the request unanswered (`none`) — after the save. -/
def resetPassword (store : List UserRec) (userId : Nat) (newPassword : String)
    (hash : String → String) (emailOk : Bool) : Option Nat × List UserRec :=
  if newPassword = "" then (some 400, store)
  else
    match store.find? (fun u => u.uid == userId) with
    | none => (some 404, store)
    | some u =>
      match u.verificationToken with
      | none => (some 400, store)
      | some _ =>
        let u' := { u with
          password := hash newPassword
          verificationToken := none
          verificationExpires := none }
        ((if emailOk then some 200 else none), saveUser store u')

/-- A concrete upstream list of 51 items: the first 50 have `added`
values `50, 49, …, 1` and the last (`sid = 50`) is the most recently
added of all (`added = 100`). -/
def exList51 : List Item :=
  (List.range 50).map (fun i => { sid := i, name := "x", added := 50 - (i : Int) }) ++
    [{ sid := 50, name := "x", added := 100 }]

/-- A concrete upstream list of 20 distinct items. -/
def ex20 : List Item :=
  (List.range 20).map (fun i => { sid := i, name := "x", added := 0 })

/-! ### Helper lemmas about the JavaScript primitives -/

theorem sliceStop_le_length (n : Nat) (b : Int) : sliceStop n b ≤ n := by
  unfold sliceStop; split <;> omega

theorem sliceStart_of_nonneg (n : Nat) (a : Int) (h : 0 ≤ a) :
    sliceStart n a = min a.toNat n := by
  unfold sliceStart; split <;> omega

theorem sliceStop_of_nonneg (n : Nat) (b : Int) (h : 0 ≤ b) :
    sliceStop n b = min b.toNat n := by
  unfold sliceStop; split <;> omega

theorem length_jsSlice (l : List α) (a b : Int) :
    (jsSlice l a b).length = sliceStop l.length b - sliceStart l.length a := by
  have h := sliceStop_le_length l.length b
  unfold jsSlice
  rw [List.length_drop, List.length_take]
  omega

theorem mem_of_mem_jsSlice {x : α} {l : List α} {a b : Int}
    (h : x ∈ jsSlice l a b) : x ∈ l :=
  List.mem_of_mem_take (List.mem_of_mem_drop h)

theorem jsSlice_sublist (l : List α) (a b : Int) :
    List.Sublist (jsSlice l a b) l :=
  (List.drop_sublist ..).trans (List.take_sublist ..)

theorem getElem?_jsSlice (l : List α) (a b : Int) (i : Nat)
    (h : i < (jsSlice l a b).length) :
    (jsSlice l a b)[i]? = l[sliceStart l.length a + i]? := by
  rw [length_jsSlice] at h
  unfold jsSlice
  rw [List.getElem?_drop]
  exact List.getElem?_take_of_lt (by omega)

theorem length_pageData_le (l : List Item) (p : Int) :
    (pageData l p).length ≤ 10 := by
  have hab : p * 10 = (p - 1) * 10 + 10 := by ring
  rw [pageData, length_jsSlice]
  unfold sliceStart sliceStop
  rw [hab]
  generalize (p - 1) * 10 = a
  split <;> split <;> omega

theorem pageData_nat_succ (l : List Item) (k : Nat) :
    pageData l ((k : Int) + 1) = (l.drop (10 * k)).take 10 := by
  have h1 : ((k : Int) + 1 - 1) * 10 = ((10 * k : Nat) : Int) := by push_cast; ring
  have h2 : ((k : Int) + 1) * 10 = ((10 * k + 10 : Nat) : Int) := by push_cast; ring
  unfold pageData jsSlice
  rw [h1, h2, sliceStart_of_nonneg _ _ (by positivity),
    sliceStop_of_nonneg _ _ (by positivity), Int.toNat_natCast, Int.toNat_natCast]
  rcases le_or_lt l.length (10 * k) with hk | hk
  · have hs : min (10 * k) l.length = l.length := by omega
    have ht : min (10 * k + 10) l.length = l.length := by omega
    rw [hs, ht, List.take_length, List.drop_length, List.drop_eq_nil_of_le hk]
    rfl
  · have hs : min (10 * k) l.length = 10 * k := by omega
    rw [hs, List.drop_take]
    rcases le_or_lt (10 * k + 10) l.length with hk2 | hk2
    · have ht : min (10 * k + 10) l.length = 10 * k + 10 := by omega
      have h10 : 10 * k + 10 - 10 * k = 10 := by omega
      rw [ht, h10]
    · have ht : min (10 * k + 10) l.length = l.length := by omega
      have e1 : (l.drop (10 * k)).take (l.length - 10 * k) = l.drop (10 * k) :=
        List.take_of_length_le (by rw [List.length_drop])
      have e2 : (l.drop (10 * k)).take 10 = l.drop (10 * k) :=
        List.take_of_length_le (by rw [List.length_drop]; omega)
      rw [ht, e1, e2]

theorem perm_insertByAdded (x : Item) (l : List Item) :
    (insertByAdded x l).Perm (x :: l) := by
  induction l with
  | nil => exact List.Perm.refl _
  | cons y ys ih =>
    unfold insertByAdded
    split
    · exact List.Perm.refl _
    · exact (ih.cons y).trans (List.Perm.swap x y ys)

theorem perm_sortByAddedDesc (l : List Item) : (sortByAddedDesc l).Perm l := by
  induction l with
  | nil => exact List.Perm.refl _
  | cons x xs ih =>
    exact (perm_insertByAdded x (sortByAddedDesc xs)).trans (ih.cons x)

theorem pairwise_insertByAdded (x : Item) (l : List Item)
    (h : l.Pairwise (fun a b => b.added ≤ a.added)) :
    (insertByAdded x l).Pairwise (fun a b => b.added ≤ a.added) := by
  induction l with
  | nil => simp [insertByAdded]
  | cons y ys ih =>
    rw [List.pairwise_cons] at h
    unfold insertByAdded
    split
    · rename_i hyx
      rw [List.pairwise_cons]
      refine ⟨?_, List.pairwise_cons.mpr h⟩
      intro z hz
      rcases List.mem_cons.mp hz with rfl | hz
      · exact hyx
      · exact le_trans (h.1 z hz) hyx
    · rename_i hyx
      rw [List.pairwise_cons]
      refine ⟨?_, ih h.2⟩
      intro z hz
      have hz' := (perm_insertByAdded x ys).mem_iff.mp hz
      rcases List.mem_cons.mp hz' with rfl | hz'
      · omega
      · exact h.1 z hz'

theorem pairwise_sortByAddedDesc (l : List Item) :
    (sortByAddedDesc l).Pairwise (fun a b => b.added ≤ a.added) := by
  induction l with
  | nil => simp [sortByAddedDesc]
  | cons x xs ih => exact pairwise_insertByAdded x (sortByAddedDesc xs) ih

theorem pagePositions_disjoint_of_lt (l : List Item) {p q : Int}
    (hp : 1 ≤ p) (hpq : p < q) :
    Disjoint (pagePositions l p) (pagePositions l q) := by
  rw [Finset.disjoint_left]
  intro i hip hiq
  rw [pagePositions, Finset.mem_Ico] at hip hiq
  have h0p : (0 : Int) ≤ (p - 1) * 10 := mul_nonneg (by omega) (by norm_num)
  have h0q : (0 : Int) ≤ (q - 1) * 10 := mul_nonneg (by omega) (by norm_num)
  rw [sliceStart_of_nonneg _ _ h0p,
    sliceStop_of_nonneg _ _ (mul_nonneg (by omega) (by norm_num))] at hip
  rw [sliceStart_of_nonneg _ _ h0q,
    sliceStop_of_nonneg _ _ (mul_nonneg (by omega) (by norm_num))] at hiq
  have hmono : (p * 10).toNat ≤ ((q - 1) * 10).toNat := by
    apply Int.toNat_le_toNat
    have : p ≤ q - 1 := by omega
    exact mul_le_mul_of_nonneg_right this (by norm_num)
  omega

theorem flatMap_take_drop :
    ∀ (m : Nat) (l : List Item), l.length ≤ 10 * m →
      (List.range m).flatMap (fun k => (l.drop (10 * k)).take 10) = l := by
  intro m
  induction m with
  | zero =>
    intro l hl
    have : l = [] := List.eq_nil_of_length_eq_zero (by omega)
    simp [this]
  | succ m ih =>
    intro l hl
    rw [List.range_succ_eq_map, List.flatMap_cons]
    have hmap : ((List.range m).map (· + 1)).flatMap (fun k => (l.drop (10 * k)).take 10)
        = (List.range m).flatMap (fun k => ((l.drop 10).drop (10 * k)).take 10) := by
      rw [List.flatMap_map]
      apply List.flatMap_congr
      intro k _
      have : (l.drop 10).drop (10 * k) = l.drop (10 * (k + 1)) := by
        rw [List.drop_drop]
        congr 1
        omega
      rw [this]
    rw [hmap, ih (l.drop 10) (by rw [List.length_drop]; omega)]
    have h0 : 10 * 0 = 0 := rfl
    rw [h0, List.drop_zero, List.take_append_drop]

theorem joinPages_eq (l : List Item) : joinPages l = l := by
  unfold joinPages
  have hfun : (fun (k : Nat) => pageData l ((k : Int) + 1))
      = fun (k : Nat) => (l.drop (10 * k)).take 10 := funext (pageData_nat_succ l)
  rw [hfun]
  exact flatMap_take_drop (ceilDiv10 l.length) l (by unfold ceilDiv10; omega)

theorem ceilDiv10_eq_ceil (n : Nat) : (ceilDiv10 n : Nat) = ⌈(n : ℚ) / 10⌉₊ := by
  apply le_antisymm
  · rcases Nat.eq_zero_or_pos (ceilDiv10 n) with h | h
    · omega
    · have hlt : ((ceilDiv10 n - 1 : Nat) : ℚ) < (n : ℚ) / 10 := by
        rw [lt_div_iff₀ (by norm_num)]
        have : (ceilDiv10 n - 1) * 10 < n := by unfold ceilDiv10 at h ⊢; omega
        exact_mod_cast this
      have := Nat.lt_ceil.mpr hlt
      omega
  · apply Nat.ceil_le.mpr
    rw [div_le_iff₀ (by norm_num)]
    have : n ≤ ceilDiv10 n * 10 := by unfold ceilDiv10; omega
    exact_mod_cast this

theorem toDigitsCore_len_exact :
    ∀ (e f n : Nat), 10 ^ e ≤ n → n < 10 ^ (e + 1) → e < f →
      (Nat.toDigitsCore 10 f n []).length = e + 1 := by
  intro e
  induction e with
  | zero =>
    intro f n h1 h2 hf
    match f, hf with
    | f + 1, _ =>
      simp only [Nat.toDigitsCore]
      have hdiv : n / 10 = 0 := Nat.div_eq_of_lt (by simpa using h2)
      simp [hdiv]
  | succ e ih =>
    intro f n h1 h2 hf
    match f, hf with
    | f + 1, hf =>
      simp only [Nat.toDigitsCore]
      have hdiv : n / 10 ≠ 0 := by
        have h10 : 10 ^ (e + 1) ≥ 10 := by
          calc (10 : Nat) = 10 ^ 1 := (pow_one 10).symm
          _ ≤ 10 ^ (e + 1) := Nat.pow_le_pow_right (by norm_num) (by omega)
        have : n ≥ 10 := le_trans h10 h1
        omega
      simp only [hdiv, if_false]
      rw [Nat.toDigitsCore_lens_eq]
      have hlow : 10 ^ e ≤ n / 10 := by
        rw [Nat.le_div_iff_mul_le (by norm_num)]
        calc 10 ^ e * 10 = 10 ^ (e + 1) := by ring
        _ ≤ n := h1
      have hhigh : n / 10 < 10 ^ (e + 1) := by
        rw [Nat.div_lt_iff_lt_mul (by norm_num)]
        calc n < 10 ^ (e + 1 + 1) := h2
        _ = 10 ^ (e + 1) * 10 := by ring
      rw [ih f (n / 10) hlow hhigh (by omega)]

/-- A natural number in `[100000, 999999]` prints (via `.toString()`,
i.e. `Nat.repr`) as a string of exactly six characters. -/
theorem repr_len_six (c : Nat) (h1 : 100000 ≤ c) (h2 : c ≤ 999999) :
    (Nat.repr c).length = 6 := by
  have h : (Nat.toDigits 10 c).length = 6 := by
    unfold Nat.toDigits
    exact toDigitsCore_len_exact 5 (c + 1) c (by norm_num; omega)
      (by norm_num; omega) (by omega)
  simpa [Nat.repr, String.length, List.asString] using h

theorem genLoop_spec (rand : Nat → Nat) (users : List UserRec)
    (hr : ∀ i, rand i < 900000) :
    ∀ fuel i c, genLoop rand users i fuel = some c →
      100000 ≤ c ∧ c ≤ 999999 ∧ ∀ u ∈ users, u.verificationToken ≠ some c := by
  intro fuel
  induction fuel with
  | zero => intro i c h; simp [genLoop] at h
  | succ fuel ih =>
    intro i c h
    rw [genLoop] at h
    cases hfind : users.find? (fun u => u.verificationToken == some (100000 + rand i)) with
    | some u => rw [hfind] at h; exact ih (i + 1) c h
    | none =>
      rw [hfind] at h
      obtain rfl : 100000 + rand i = c := Option.some.inj h
      refine ⟨by omega, by have := hr i; omega, ?_⟩
      intro u hu hc
      have hpred := List.find?_eq_none.mp hfind u hu
      rw [hc] at hpred
      simp at hpred

theorem mem_saveUser {store : List UserRec} {u v : UserRec}
    (h : v ∈ saveUser store u) : v = u ∨ (v ∈ store ∧ v.uid ≠ u.uid) := by
  unfold saveUser at h
  rcases List.mem_map.mp h with ⟨w, hw, hv⟩
  by_cases hc : w.uid = u.uid
  · left
    rw [← hv]
    simp [hc]
  · right
    have : v = w := by rw [← hv]; simp [hc]
    exact ⟨this ▸ hw, by rw [this]; exact hc⟩

theorem jsSlice_zero (l : List α) (b : Int) (hb : 0 ≤ b) :
    jsSlice l 0 b = l.take b.toNat := by
  unfold jsSlice
  have h0 : sliceStart l.length 0 = 0 := by unfold sliceStart; simp
  rw [h0, sliceStop_of_nonneg _ _ hb, List.drop_zero]
  exact List.take_eq_take.mpr (by omega)

/-! ### The claims -/

/-- Claim C1, as stated, is FALSE: `GET /series/recent` does not sort the
full upstream list before truncating to 50.  On the concrete 51-item list
`exList51` whose most recently added item sits at position 50, the first
page served by the `/series/recent` handler differs from the
sort-then-truncate-then-paginate result the claim prescribes (the code
never serves the most recent item at all, because it is cut off by the
initial `slice(0, 50)`). -/
theorem series_recent_not_sort_of_full_list :
    (seriesRecentPage exList51 (some 1)).data ≠ recentSpec exList51 (some 1) := by
  decide

/-- Claim C1, amended: `GET /vods/recent` behaves exactly as the claim
says (sort the full list by `added` descending, truncate to 50, paginate),
and every item it serves is among the first 50 of the descending-sorted
full list; but `GET /series/recent` and `GET /live/recent` truncate to the
FIRST 50 items of the upstream list before sorting, so every item they
serve is merely among the first 50 items of the upstream list (served in
descending `added` order among themselves), not necessarily among the 50
most recently added. -/
theorem recent_endpoints_amended (l : List Item) (rawPage : Option Int) :
    (vodsRecentPage l rawPage).data = recentSpec l rawPage ∧
    (∀ x ∈ (vodsRecentPage l rawPage).data, x ∈ (sortByAddedDesc l).take 50) ∧
    (∀ x ∈ (seriesRecentPage l rawPage).data, x ∈ jsSlice l 0 50) ∧
    (∀ x ∈ (liveRecentPage l rawPage).data, x ∈ jsSlice l 0 50) ∧
    (vodsRecentPage l rawPage).data.Pairwise (fun a b => b.added ≤ a.added) ∧
    (seriesRecentPage l rawPage).data.Pairwise (fun a b => b.added ≤ a.added) ∧
    (liveRecentPage l rawPage).data.Pairwise (fun a b => b.added ≤ a.added) := by
  have hvods : (vodsRecentPage l rawPage).data = recentSpec l rawPage := by
    unfold vodsRecentPage recentSpec
    rw [jsSlice_zero _ _ (by norm_num)]
    rfl
  have hsorted : ∀ m : List Item,
      (pageData (sortByAddedDesc m) (resolvePage rawPage)).Pairwise
        (fun a b => b.added ≤ a.added) :=
    fun m => (pairwise_sortByAddedDesc m).sublist (jsSlice_sublist ..)
  refine ⟨hvods, ?_, ?_, ?_, ?_, hsorted (jsSlice l 0 50), hsorted (jsSlice l 0 50)⟩
  · intro x hx
    rw [hvods] at hx
    unfold recentSpec at hx
    exact mem_of_mem_jsSlice hx
  · intro x hx
    exact (perm_sortByAddedDesc (jsSlice l 0 50)).mem_iff.mp (mem_of_mem_jsSlice hx)
  · intro x hx
    exact (perm_sortByAddedDesc (jsSlice l 0 50)).mem_iff.mp (mem_of_mem_jsSlice hx)
  · exact (pairwise_sortByAddedDesc l).sublist
      ((jsSlice_sublist ..).trans (jsSlice_sublist ..))

/-- Claim C2, as stated, is FALSE: the endpoints accept every nonzero
integer as the page value (`parseInt(req.query.page) || 1`), and for a
negative page JavaScript `slice` counts from the end of the array, so two
distinct accepted page values can cover the same positions.  On the
20-item list `ex20`, page `-1` yields `slice(-20, -10)` — positions 0–9 —
exactly the positions of page `1`. -/
theorem page_slices_can_overlap :
    ¬ (∀ (l : List Item) (p q : Int), p ≠ 0 → q ≠ 0 → p ≠ q →
        Disjoint (pagePositions l p) (pagePositions l q)) := by
  intro h
  have hd := h ex20 (-1) 1 (by decide) (by decide) (by decide)
  exact absurd (by decide : (0 : Nat) ∈ pagePositions ex20 1)
    (Finset.disjoint_left.mp hd (by decide : (0 : Nat) ∈ pagePositions ex20 (-1)))

/-- Claim C2, amended: for every two distinct POSITIVE page values the
returned slices occupy disjoint position ranges of the list (the slice of
page `p` covers exactly the `(pagePositions l p).card` positions starting
at `sliceStart`, which is its length), and concatenating the slices of
pages `1, 2, …, totalPages` in order yields the whole list.  (Negative
pages are also accepted by the code and can overlap other pages, as the
counterexample shows.) -/
theorem page_slices_disjoint_amended (l : List Item) (p q : Int)
    (hp : 1 ≤ p) (hq : 1 ≤ q) (hpq : p ≠ q) :
    Disjoint (pagePositions l p) (pagePositions l q) ∧
    (pageData l p).length = (pagePositions l p).card ∧
    joinPages l = l := by
  refine ⟨?_, ?_, joinPages_eq l⟩
  · rcases lt_or_gt_of_ne hpq with h | h
    · exact pagePositions_disjoint_of_lt l hp h
    · exact (pagePositions_disjoint_of_lt l hq h).symm
  · rw [pageData, length_jsSlice, pagePositions, Nat.card_Ico]

/-- Witness for the amended claim C2 at the concrete list `ex20` and pages
`1` and `2`. -/
theorem page_slices_disjoint_amended_witness :
    Disjoint (pagePositions ex20 1) (pagePositions ex20 2) ∧
    (pageData ex20 1).length = (pagePositions ex20 1).card ∧
    joinPages ex20 = ex20 :=
  page_slices_disjoint_amended ex20 1 2 (by decide) (by decide) (by decide)

/-- Claim C3: whenever `generateUniqueVerificationCode` returns, the code
is an integer in `[100000, 999999]` — a string of exactly six decimal
digits once printed — that differs from the `verificationToken` of every
existing user; and each of the operations that issues a code
(`POST /register`, `POST /resend-verification`, `POST /forgot-password`)
only ever adds users whose stored token is that fresh unique code (every
user of the resulting store either was already present or carries the
generated code, which no previously stored token equals). -/
theorem verification_codes_six_digits_unique
    (rand : Nat → Nat) (store : List UserRec) (fuel : Nat) (c : Nat)
    (hr : ∀ i, rand i < 900000)
    (hgen : generateUniqueVerificationCode rand store fuel = some c) :
    (100000 ≤ c ∧ c ≤ 999999 ∧ (Nat.repr c).length = 6 ∧
      ∀ u ∈ store, u.verificationToken ≠ some c) ∧
    (∀ req hash saveOk emailOk now newUid,
      ∀ v ∈ (register store req hash rand fuel saveOk emailOk now newUid).2,
        v ∈ store ∨ (v.verificationToken = some c ∧
          ∀ u ∈ store, u.verificationToken ≠ v.verificationToken)) ∧
    (∀ email emailOk now,
      ∀ v ∈ (resendVerification store email rand fuel emailOk now).2,
        v ∈ store ∨ (v.verificationToken = some c ∧
          ∀ u ∈ store, u.verificationToken ≠ v.verificationToken)) ∧
    (∀ email emailOk now,
      ∀ v ∈ (forgotPassword store email rand fuel emailOk now).2,
        v ∈ store ∨ (v.verificationToken = some c ∧
          ∀ u ∈ store, u.verificationToken ≠ v.verificationToken)) := by
  obtain ⟨h1, h2, hfresh⟩ := genLoop_spec rand store hr fuel 0 c hgen
  have hsave : ∀ (st : List UserRec) (u' : UserRec),
      u'.verificationToken = some c →
      ∀ v ∈ saveUser st u', v ∈ st ∨ (v.verificationToken = some c ∧
        ∀ u ∈ store, u.verificationToken ≠ v.verificationToken) := by
    intro st u' hu' v hv
    rcases mem_saveUser hv with rfl | ⟨hvst, _⟩
    · right
      exact ⟨hu', fun u hu => hu' ▸ hfresh u hu⟩
    · left; exact hvst
  refine ⟨⟨h1, h2, repr_len_six c h1 h2, hfresh⟩, ?_, ?_, ?_⟩
  · intro req hash saveOk emailOk now newUid v
    unfold register
    split
    · exact fun hv => Or.inl hv
    · split
      · exact fun hv => Or.inl hv
      · split
        · rename_i heq
          rw [heq] at hgen
          exact absurd hgen (by simp)
        · rename_i code heq
          rw [heq] at hgen
          obtain rfl : code = c := Option.some.inj hgen
          split
          · split
            · intro hv
              rcases List.mem_append.mp hv with hvst | hvnew
              · exact Or.inl hvst
              · right
                rw [List.mem_singleton.mp hvnew]
                exact ⟨rfl, fun u hu => hfresh u hu⟩
            · intro hv
              have hv' := List.mem_of_mem_eraseP hv
              rcases List.mem_append.mp hv' with hvst | hvnew
              · exact Or.inl hvst
              · right
                rw [List.mem_singleton.mp hvnew]
                exact ⟨rfl, fun u hu => hfresh u hu⟩
          · exact fun hv => Or.inl hv
  · intro email emailOk now v
    unfold resendVerification
    split
    · exact fun hv => Or.inl hv
    · split
      · exact fun hv => Or.inl hv
      · rename_i u hu
        split
        · exact fun hv => Or.inl hv
        · split
          · rename_i heq
            rw [heq] at hgen
            exact absurd hgen (by simp)
          · rename_i code heq
            rw [heq] at hgen
            obtain rfl : code = c := Option.some.inj hgen
            exact hsave store _ rfl v
  · intro email emailOk now v
    unfold forgotPassword
    split
    · exact fun hv => Or.inl hv
    · split
      · exact fun hv => Or.inl hv
      · rename_i u hu
        split
        · rename_i heq
          rw [heq] at hgen
          exact absurd hgen (by simp)
        · rename_i code heq
          rw [heq] at hgen
          obtain rfl : code = c := Option.some.inj hgen
          exact hsave store _ rfl v

/-- Witness for claim C3 at the empty store with the constant-zero random
stream, one unit of fuel, and the resulting code `100000`. -/
theorem verification_codes_six_digits_unique_witness :
    (∀ i : Nat, (fun _ => 0 : Nat → Nat) i < 900000) ∧
    generateUniqueVerificationCode (fun _ => 0) [] 1 = some 100000 ∧
    ((100000 ≤ 100000 ∧ 100000 ≤ 999999 ∧ (Nat.repr 100000).length = 6 ∧
      ∀ u ∈ ([] : List UserRec), u.verificationToken ≠ some 100000) ∧
    (∀ req hash saveOk emailOk now newUid,
      ∀ v ∈ (register [] req hash (fun _ => 0) 1 saveOk emailOk now newUid).2,
        v ∈ ([] : List UserRec) ∨ (v.verificationToken = some 100000 ∧
          ∀ u ∈ ([] : List UserRec), u.verificationToken ≠ v.verificationToken)) ∧
    (∀ email emailOk now,
      ∀ v ∈ (resendVerification [] email (fun _ => 0) 1 emailOk now).2,
        v ∈ ([] : List UserRec) ∨ (v.verificationToken = some 100000 ∧
          ∀ u ∈ ([] : List UserRec), u.verificationToken ≠ v.verificationToken)) ∧
    (∀ email emailOk now,
      ∀ v ∈ (forgotPassword [] email (fun _ => 0) 1 emailOk now).2,
        v ∈ ([] : List UserRec) ∨ (v.verificationToken = some 100000 ∧
          ∀ u ∈ ([] : List UserRec), u.verificationToken ≠ v.verificationToken))) :=
  ⟨fun _ => by norm_num, rfl,
    verification_codes_six_digits_unique (fun _ => 0) [] 1 100000
      (fun _ => by norm_num) rfl⟩

/-- Claim C4: `GET /search` with a missing `q` answers 400 without issuing
any upstream request; with a non-empty `q` it issues exactly the three
upstream requests and returns, for each collection, exactly the items
whose `name` contains `q` as a case-insensitive substring — each result
list is a sublist of its collection (original order preserved) and
membership is characterised by the substring condition. -/
theorem search_filters_collections (fetch : String → Except String (List Item))
    (q : String) (liveL vodL serL : List Item) (hq : q ≠ "")
    (hl : fetch "get_live_streams" = .ok liveL)
    (hv : fetch "get_vod_streams" = .ok vodL)
    (hs : fetch "get_series" = .ok serL) :
    searchEndpoint none fetch =
      (.badRequest "Debe proporcionar un término de búsqueda (q)", []) ∧
    searchEndpoint (some q) fetch =
      (.results q (liveL.filter (searchMatches q)) (vodL.filter (searchMatches q))
        (serL.filter (searchMatches q)),
        ["get_live_streams", "get_vod_streams", "get_series"]) ∧
    List.Sublist (liveL.filter (searchMatches q)) liveL ∧
    List.Sublist (vodL.filter (searchMatches q)) vodL ∧
    List.Sublist (serL.filter (searchMatches q)) serL ∧
    (∀ x, x ∈ liveL.filter (searchMatches q) ↔
      x ∈ liveL ∧ (jsToLower q).toList <:+: (jsToLower x.name).toList) ∧
    (∀ x, x ∈ vodL.filter (searchMatches q) ↔
      x ∈ vodL ∧ (jsToLower q).toList <:+: (jsToLower x.name).toList) ∧
    (∀ x, x ∈ serL.filter (searchMatches q) ↔
      x ∈ serL ∧ (jsToLower q).toList <:+: (jsToLower x.name).toList) := by
  have hmatch : ∀ x : Item, searchMatches q x = true ↔
      (jsToLower q).toList <:+: (jsToLower x.name).toList := by
    intro x
    unfold searchMatches jsIncludes
    exact decide_eq_true_iff
  have hiff : ∀ (m : List Item) (x : Item), x ∈ m.filter (searchMatches q) ↔
      x ∈ m ∧ (jsToLower q).toList <:+: (jsToLower x.name).toList := by
    intro m x
    rw [List.mem_filter, hmatch]
  refine ⟨rfl, ?_, List.filter_sublist liveL, List.filter_sublist vodL,
    List.filter_sublist serL, hiff liveL, hiff vodL, hiff serL⟩
  simp only [searchEndpoint, hl, hv, hs, if_neg hq]

/-- Witness for claim C4 at the query `"alp"` over a one-item collection
whose name `"Alpha"` matches case-insensitively. -/
theorem search_filters_collections_witness :
    ("alp" : String) ≠ "" ∧
    (searchEndpoint none (fun _ => .ok [{ sid := 1, name := "Alpha", added := 0 }]) =
      (.badRequest "Debe proporcionar un término de búsqueda (q)", []) ∧
    searchEndpoint (some "alp") (fun _ => .ok [{ sid := 1, name := "Alpha", added := 0 }]) =
      (.results "alp"
        ([{ sid := 1, name := "Alpha", added := 0 }].filter (searchMatches "alp"))
        ([{ sid := 1, name := "Alpha", added := 0 }].filter (searchMatches "alp"))
        ([{ sid := 1, name := "Alpha", added := 0 }].filter (searchMatches "alp")),
        ["get_live_streams", "get_vod_streams", "get_series"]) ∧
    List.Sublist ([{ sid := 1, name := "Alpha", added := 0 }].filter (searchMatches "alp"))
      [{ sid := 1, name := "Alpha", added := 0 }] ∧
    List.Sublist ([{ sid := 1, name := "Alpha", added := 0 }].filter (searchMatches "alp"))
      [{ sid := 1, name := "Alpha", added := 0 }] ∧
    List.Sublist ([{ sid := 1, name := "Alpha", added := 0 }].filter (searchMatches "alp"))
      [{ sid := 1, name := "Alpha", added := 0 }] ∧
    (∀ x, x ∈ [{ sid := 1, name := "Alpha", added := 0 }].filter (searchMatches "alp") ↔
      x ∈ [({ sid := 1, name := "Alpha", added := 0 } : Item)] ∧
        (jsToLower "alp").toList <:+: (jsToLower x.name).toList) ∧
    (∀ x, x ∈ [{ sid := 1, name := "Alpha", added := 0 }].filter (searchMatches "alp") ↔
      x ∈ [({ sid := 1, name := "Alpha", added := 0 } : Item)] ∧
        (jsToLower "alp").toList <:+: (jsToLower x.name).toList) ∧
    (∀ x, x ∈ [{ sid := 1, name := "Alpha", added := 0 }].filter (searchMatches "alp") ↔
      x ∈ [({ sid := 1, name := "Alpha", added := 0 } : Item)] ∧
        (jsToLower "alp").toList <:+: (jsToLower x.name).toList)) :=
  ⟨by decide,
    search_filters_collections (fun _ => .ok [{ sid := 1, name := "Alpha", added := 0 }])
      "alp" [{ sid := 1, name := "Alpha", added := 0 }]
      [{ sid := 1, name := "Alpha", added := 0 }]
      [{ sid := 1, name := "Alpha", added := 0 }] (by decide) rfl rfl rfl⟩

/-- Claim C5: when the single upstream request of a content endpoint
fails, the endpoint answers 500 with a JSON `error` body and the call log
shows exactly one request (no retry); and for `GET /search`, failure of
any one of the three parallel upstream requests fails the whole request
with 500, again with each of the three requests issued exactly once. -/
theorem upstream_failure_propagates_500
    (fetch : String → Except String (List Item)) (action errMsg : String)
    (rawPage : Option Int) (e : String) (q : String)
    (hfail : fetch action = .error e) (hq : q ≠ "")
    (hany : (∃ e1, fetch "get_live_streams" = .error e1) ∨
      (∃ e2, fetch "get_vod_streams" = .error e2) ∨
      (∃ e3, fetch "get_series" = .error e3)) :
    contentEndpoint fetch action errMsg rawPage = (.err 500 errMsg, [action]) ∧
    searchEndpoint (some q) fetch =
      (.err 500 "Error al realizar la búsqueda",
        ["get_live_streams", "get_vod_streams", "get_series"]) := by
  constructor
  · unfold contentEndpoint
    rw [hfail]
  · simp only [searchEndpoint, if_neg hq]
    cases hl : fetch "get_live_streams" <;>
      cases hv : fetch "get_vod_streams" <;>
      cases hs2 : fetch "get_series" <;>
      simp_all

/-- Witness for claim C5 with an upstream that always fails. -/
theorem upstream_failure_propagates_500_witness :
    (fun _ => (.error "boom" : Except String (List Item))) "get_vod_streams"
      = .error "boom" ∧
    ("a" : String) ≠ "" ∧
    (contentEndpoint (fun _ => .error "boom") "get_vod_streams"
        "Error al obtener los VODs" none =
      (.err 500 "Error al obtener los VODs", ["get_vod_streams"]) ∧
    searchEndpoint (some "a") (fun _ => .error "boom") =
      (.err 500 "Error al realizar la búsqueda",
        ["get_live_streams", "get_vod_streams", "get_series"])) :=
  ⟨rfl, by decide,
    upstream_failure_propagates_500 (fun _ => .error "boom") "get_vod_streams"
      "Error al obtener los VODs" none "boom" "a" rfl (by decide)
      (Or.inl ⟨"boom", rfl⟩)⟩

/-- Claim C6: on every protected route, a wrong `x-api-key` header yields
403 and stops the chain (the handler never runs); with a matching key but
no bearer token in the `Authorization` header the response is 401; with a
token that fails JWT verification the response is 403; and the handler
runs exactly when the key matches, a token is present, and it verifies. -/
theorem auth_gate (k : Option String) (verify : String → Option Nat) (req : AuthReq) :
    (req.apiKeyHeader ≠ k →
      protectedRoute k verify req = .forbiddenKey ∧
      (protectedRoute k verify req).status = 403 ∧
      (protectedRoute k verify req).ran = false) ∧
    (req.apiKeyHeader = k → extractToken req.authHeader = none →
      protectedRoute k verify req = .missingToken ∧
      (protectedRoute k verify req).status = 401 ∧
      (protectedRoute k verify req).ran = false) ∧
    (∀ t, req.apiKeyHeader = k → extractToken req.authHeader = some t →
      verify t = none →
      protectedRoute k verify req = .invalidToken ∧
      (protectedRoute k verify req).status = 403 ∧
      (protectedRoute k verify req).ran = false) ∧
    (∀ t uid, req.apiKeyHeader = k → extractToken req.authHeader = some t →
      verify t = some uid →
      protectedRoute k verify req = .handlerRan uid) ∧
    ((protectedRoute k verify req).ran = true →
      req.apiKeyHeader = k ∧
      ∃ t uid, extractToken req.authHeader = some t ∧ verify t = some uid) := by
  refine ⟨?_, ?_, ?_, ?_, ?_⟩
  · intro hne
    have h : protectedRoute k verify req = .forbiddenKey := by
      unfold protectedRoute
      rw [if_neg hne]
    exact ⟨h, by rw [h]; rfl, by rw [h]; rfl⟩
  · intro he hex
    have h : protectedRoute k verify req = .missingToken := by
      simp only [protectedRoute, if_pos he, hex]
    exact ⟨h, by rw [h]; rfl, by rw [h]; rfl⟩
  · intro t he hex hv
    have h : protectedRoute k verify req = .invalidToken := by
      simp only [protectedRoute, if_pos he, hex, hv]
    exact ⟨h, by rw [h]; rfl, by rw [h]; rfl⟩
  · intro t uid he hex hv
    simp only [protectedRoute, if_pos he, hex, hv]
  · intro hran
    by_cases he : req.apiKeyHeader = k
    · refine ⟨he, ?_⟩
      cases hex : extractToken req.authHeader with
      | none =>
        simp [protectedRoute, he, hex, AuthOutcome.ran] at hran
      | some t =>
        cases hv : verify t with
        | none =>
          simp [protectedRoute, he, hex, hv, AuthOutcome.ran] at hran
        | some uid => exact ⟨t, uid, rfl, hv⟩
    · exfalso
      simp [protectedRoute, he, AuthOutcome.ran] at hran

/-- Claim C7: `GET /profiles` returns only profiles owned by the
authenticated user; `GET /profiles/:profileId` and `getProfileParams`
return a profile only when it both has the requested id and belongs to
the authenticated user; and when the requested profile id belongs only to
other users, `GET /profiles/:profileId` answers 404 and `getProfileParams`
throws `Perfil no encontrado o no autorizado` — another user's
credentials are never returned. -/
theorem profile_ownership (db : List ProfileRec) (authUserId : Nat) :
    (∀ p ∈ getProfiles authUserId db, p.userId = authUserId) ∧
    (∀ pid p, getProfileById pid authUserId db = .ok p →
      p.userId = authUserId ∧ p.pid = pid ∧ p ∈ db) ∧
    (∀ pid p, getProfileParams pid authUserId db = .ok p →
      p.userId = authUserId ∧ p.pid = pid ∧ p ∈ db) ∧
    (∀ pid, (∀ p ∈ db, p.pid = pid → p.userId ≠ authUserId) →
      getProfileById pid authUserId db = .error (404, "Perfil no encontrado") ∧
      getProfileParams pid authUserId db =
        .error "Perfil no encontrado o no autorizado") := by
  have hfind : ∀ pid p,
      db.find? (fun r => r.pid == pid && r.userId == authUserId) = some p →
      p.userId = authUserId ∧ p.pid = pid ∧ p ∈ db := by
    intro pid p hp
    have hpred := List.find?_some hp
    simp only [Bool.and_eq_true, beq_iff_eq] at hpred
    exact ⟨hpred.2, hpred.1, List.mem_of_find?_eq_some hp⟩
  have hnone : ∀ pid, (∀ p ∈ db, p.pid = pid → p.userId ≠ authUserId) →
      db.find? (fun r => r.pid == pid && r.userId == authUserId) = none := by
    intro pid h
    apply List.find?_eq_none.mpr
    intro p hp
    simp only [Bool.and_eq_true, beq_iff_eq, not_and]
    exact fun hpid => h p hp hpid
  refine ⟨?_, ?_, ?_, ?_⟩
  · intro p hp
    have := List.mem_filter.mp hp
    simpa using this.2
  · intro pid p hok
    unfold getProfileById at hok
    cases hf : db.find? (fun r => r.pid == pid && r.userId == authUserId) with
    | none => rw [hf] at hok; cases hok
    | some r =>
      rw [hf] at hok
      obtain rfl := Except.ok.inj hok
      exact hfind pid _ hf
  · intro pid p hok
    unfold getProfileParams at hok
    cases hf : db.find? (fun r => r.pid == pid && r.userId == authUserId) with
    | none => rw [hf] at hok; cases hok
    | some r =>
      rw [hf] at hok
      obtain rfl := Except.ok.inj hok
      exact hfind pid _ hf
  · intro pid h
    constructor
    · unfold getProfileById
      rw [hnone pid h]
    · unfold getProfileParams
      rw [hnone pid h]

theorem register_reduces (store : List UserRec) (req : RegisterReq)
    (hash : String → String) (rand : Nat → Nat) (fuel : Nat)
    (saveOk emailOk : Bool) (now : Int) (newUid : Nat) (c : Nat)
    (hfields : ¬(req.username = "" ∨ req.password = "" ∨ req.email = "" ∨
      req.firstName = "" ∨ req.lastName = ""))
    (hfindu : store.find? (fun u => u.username == req.username) = none)
    (hgen : generateUniqueVerificationCode rand store fuel = some c) :
    register store req hash rand fuel saveOk emailOk now newUid =
      (if saveOk then
        (if emailOk then
          (some (201, "Usuario registrado exitosamente. Por favor, verifica tu correo para activar tu cuenta."),
            store ++ [UserRec.mk newUid req.username req.email (hash req.password)
              req.firstName req.lastName (some c) (some (now + 10 * 60 * 1000)) false])
        else
          (some (500, "Error al enviar el correo de verificación. Tu cuenta no ha sido creada."),
            (store ++ [UserRec.mk newUid req.username req.email (hash req.password)
              req.firstName req.lastName (some c) (some (now + 10 * 60 * 1000)) false]).eraseP
              (fun u => u.email == req.email)))
      else (none, store)) := by
  unfold register
  rw [if_neg hfields, hfindu, hgen]
  rfl

/-- Claim C8: in `POST /register`, when the verification email fails after
the new user document was saved, the handler deletes the user record by
email and responds 500 saying the account was not created — the store is
exactly as before the registration and holds no account with that email —
while a 201 is produced exactly when both the save and the email send
succeed. -/
theorem registration_atomicity (store : List UserRec) (req : RegisterReq)
    (hash : String → String) (rand : Nat → Nat) (fuel : Nat) (c : Nat)
    (now : Int) (newUid : Nat)
    (hfields : ¬(req.username = "" ∨ req.password = "" ∨ req.email = "" ∨
      req.firstName = "" ∨ req.lastName = ""))
    (husername : ∀ u ∈ store, u.username ≠ req.username)
    (hfresh : ∀ u ∈ store, u.email ≠ req.email)
    (hgen : generateUniqueVerificationCode rand store fuel = some c) :
    (register store req hash rand fuel true false now newUid).1 =
      some (500, "Error al enviar el correo de verificación. Tu cuenta no ha sido creada.") ∧
    (register store req hash rand fuel true false now newUid).2 = store ∧
    (∀ v ∈ (register store req hash rand fuel true false now newUid).2,
      v.email ≠ req.email) ∧
    (register store req hash rand fuel true true now newUid).1 =
      some (201, "Usuario registrado exitosamente. Por favor, verifica tu correo para activar tu cuenta.") ∧
    (∀ saveOk emailOk,
      (register store req hash rand fuel saveOk emailOk now newUid).1 =
        some (201, "Usuario registrado exitosamente. Por favor, verifica tu correo para activar tu cuenta.") →
      saveOk = true ∧ emailOk = true) := by
  have hfindu : store.find? (fun u => u.username == req.username) = none :=
    List.find?_eq_none.mpr (fun u hu => by simp [husername u hu])
  have hred := register_reduces store req hash rand fuel
  have hstore : (register store req hash rand fuel true false now newUid).2 = store := by
    rw [hred true false now newUid c hfields hfindu hgen]
    simp only [if_pos rfl, if_neg (by decide : ¬(false = true))]
    rw [List.eraseP_append_right _ (fun u hu => by simp [hfresh u hu])]
    rw [List.eraseP_cons_of_pos (by simp)]
    simp
  refine ⟨?_, hstore, ?_, ?_, ?_⟩
  · rw [hred true false now newUid c hfields hfindu hgen]
    rfl
  · intro v hv
    rw [hstore] at hv
    exact hfresh v hv
  · rw [hred true true now newUid c hfields hfindu hgen]
    rfl
  · intro saveOk emailOk h
    rw [hred saveOk emailOk now newUid c hfields hfindu hgen] at h
    cases saveOk
    · simp at h
    · cases emailOk
      · simp at h
      · exact ⟨rfl, rfl⟩

/-- Witness for claim C8 at the empty store and a concrete registration
request. -/
theorem registration_atomicity_witness :
    (¬(("a" : String) = "" ∨ ("b" : String) = "" ∨ ("e" : String) = "" ∨
      ("f" : String) = "" ∨ ("g" : String) = "")) ∧
    generateUniqueVerificationCode (fun _ => 0) [] 1 = some 100000 ∧
    ((register [] ⟨"a", "b", "e", "f", "g"⟩ id (fun _ => 0) 1 true false 0 1).1 =
      some (500, "Error al enviar el correo de verificación. Tu cuenta no ha sido creada.") ∧
    (register [] ⟨"a", "b", "e", "f", "g"⟩ id (fun _ => 0) 1 true false 0 1).2 = [] ∧
    (∀ v ∈ (register [] ⟨"a", "b", "e", "f", "g"⟩ id (fun _ => 0) 1 true false 0 1).2,
      v.email ≠ "e") ∧
    (register [] ⟨"a", "b", "e", "f", "g"⟩ id (fun _ => 0) 1 true true 0 1).1 =
      some (201, "Usuario registrado exitosamente. Por favor, verifica tu correo para activar tu cuenta.") ∧
    (∀ saveOk emailOk,
      (register [] ⟨"a", "b", "e", "f", "g"⟩ id (fun _ => 0) 1 saveOk emailOk 0 1).1 =
        some (201, "Usuario registrado exitosamente. Por favor, verifica tu correo para activar tu cuenta.") →
      saveOk = true ∧ emailOk = true)) :=
  ⟨by decide, rfl,
    registration_atomicity [] ⟨"a", "b", "e", "f", "g"⟩ id (fun _ => 0) 1 100000 0 1
      (by decide) (by simp) (by simp) rfl⟩

theorem find?_uid_saveUser :
    ∀ (store : List UserRec) (w : UserRec) (uid0 : Nat), w.uid = uid0 →
      ∀ u, store.find? (fun x => x.uid == uid0) = some u →
        (saveUser store w).find? (fun x => x.uid == uid0) = some w := by
  intro store
  induction store with
  | nil => intro w uid0 hw u hu; cases hu
  | cons v vs ih =>
    intro w uid0 hw u hu
    unfold saveUser
    rw [List.map_cons]
    by_cases hv : v.uid = uid0
    · have hcond : (v.uid == w.uid) = true := by simp [hv, hw]
      rw [hcond, if_pos rfl]
      exact List.find?_cons_of_pos _ (by simp [hw])
    · have hcond : (v.uid == w.uid) = false := by simp [hw]; omega
      rw [hcond, if_neg (by decide)]
      rw [List.find?_cons_of_neg _ (by simp [hv])]
      rw [List.find?_cons_of_neg _ (by simp [hv])] at hu
      exact ih w uid0 hw u hu

/-- Claim C9: a successful `POST /verify` nulls the consuming user's
`verificationToken` and `verificationExpires` (and sets `isVerified`), so
the consumed code appears nowhere in the resulting store and the same
code is refused with 400 if submitted again; `POST /reset-password`
refuses with 400 when the stored token is already null, and a successful
reset nulls the token fields, so a second reset with the same temporary
token is refused with 400 — each issued code is consumed at most once. -/
theorem verification_codes_single_use
    (store store2 store3 : List UserRec) (c : Nat) (now now2 : Int)
    (emailOk emailOk2 emailOk3 emailOk4 emailOk5 : Bool)
    (userId2 userId3 : Nat) (u2 : UserRec) (pw pw3 pw4 : String)
    (hash : String → String)
    (huniq : ∀ v ∈ store, ∀ w ∈ store, v.verificationToken = some c →
      w.verificationToken = some c → v = w)
    (h200 : (verifyAccount store (some c) now emailOk).1 = 200)
    (hfind2 : store2.find? (fun u => u.uid == userId2) = some u2)
    (htok2 : u2.verificationToken = none)
    (hpw : pw ≠ "") (hpw4 : pw4 ≠ "")
    (h200r : (resetPassword store3 userId3 pw3 hash emailOk4).1 = some 200) :
    (∀ v ∈ (verifyAccount store (some c) now emailOk).2,
      v.verificationToken ≠ some c) ∧
    (∀ v ∈ (verifyAccount store (some c) now emailOk).2,
      (v.isVerified = true ∧ v.verificationToken = none ∧
        v.verificationExpires = none) ∨ v ∈ store) ∧
    verifyAccount (verifyAccount store (some c) now emailOk).2 (some c) now2 emailOk2 =
      (400, (verifyAccount store (some c) now emailOk).2) ∧
    resetPassword store2 userId2 pw hash emailOk3 = (some 400, store2) ∧
    (∀ v ∈ (resetPassword store3 userId3 pw3 hash emailOk4).2, v.uid = userId3 →
      v.verificationToken = none ∧ v.verificationExpires = none) ∧
    resetPassword (resetPassword store3 userId3 pw3 hash emailOk4).2 userId3 pw4
        hash emailOk5 =
      (some 400, (resetPassword store3 userId3 pw3 hash emailOk4).2) := by
  -- ------- the verify part -------
  cases hf : store.find? (fun u => u.verificationToken == some c) with
  | none =>
    exfalso
    simp only [verifyAccount, hf] at h200
    simp at h200
  | some u =>
  have hu : u ∈ store := List.mem_of_find?_eq_some hf
  have hutok : u.verificationToken = some c := by simpa using List.find?_some hf
  cases hexp : (match u.verificationExpires with
      | some exp => decide (now > exp)
      | none => false) with
  | true =>
    exfalso
    simp only [verifyAccount, hf, hexp] at h200
    simp at h200
  | false =>
  have hst : (verifyAccount store (some c) now emailOk).2 =
      saveUser store { u with isVerified := true, verificationToken := none, verificationExpires := none } := by
    simp only [verifyAccount, hf, hexp, Bool.false_eq_true, if_false]
  have hnotc : ∀ v ∈ (verifyAccount store (some c) now emailOk).2,
      v.verificationToken ≠ some c := by
    rw [hst]
    intro v hv
    rcases mem_saveUser hv with rfl | ⟨hvst, hvuid⟩
    · simp
    · intro hvc
      have : v = u := huniq v hvst u hu hvc hutok
      exact hvuid (by rw [this])
  have hold : ∀ v ∈ (verifyAccount store (some c) now emailOk).2,
      (v.isVerified = true ∧ v.verificationToken = none ∧
        v.verificationExpires = none) ∨ v ∈ store := by
    rw [hst]
    intro v hv
    rcases mem_saveUser hv with rfl | ⟨hvst, _⟩
    · exact Or.inl ⟨rfl, rfl, rfl⟩
    · exact Or.inr hvst
  have hsecond : verifyAccount (verifyAccount store (some c) now emailOk).2
      (some c) now2 emailOk2 = (400, (verifyAccount store (some c) now emailOk).2) := by
    have hnone : (verifyAccount store (some c) now emailOk).2.find?
        (fun v => v.verificationToken == some c) = none :=
      List.find?_eq_none.mpr (fun v hv => by simp [hnotc v hv])
    set st := (verifyAccount store (some c) now emailOk).2 with hstdef
    simp only [verifyAccount, hnone]
  -- ------- the reset-password part -------
  have hrefuse : resetPassword store2 userId2 pw hash emailOk3 = (some 400, store2) := by
    simp only [resetPassword, if_neg hpw, hfind2, htok2]
  -- extract the success path of the first reset
  by_cases hp3 : pw3 = ""
  · exfalso
    simp only [resetPassword, if_pos hp3] at h200r
    simp at h200r
  cases hf3 : store3.find? (fun x => x.uid == userId3) with
  | none =>
    exfalso
    simp only [resetPassword, if_neg hp3, hf3] at h200r
    simp at h200r
  | some u3 =>
  cases hu3tok : u3.verificationToken with
  | none =>
    exfalso
    simp only [resetPassword, if_neg hp3, hf3, hu3tok] at h200r
    simp at h200r
  | some tk =>
  have hu3uid : u3.uid = userId3 := by simpa using List.find?_some hf3
  have hst3 : (resetPassword store3 userId3 pw3 hash emailOk4).2 =
      saveUser store3 { u3 with password := hash pw3, verificationToken := none, verificationExpires := none } := by
    simp only [resetPassword, if_neg hp3, hf3, hu3tok]
  have hnull3 : ∀ v ∈ (resetPassword store3 userId3 pw3 hash emailOk4).2,
      v.uid = userId3 → v.verificationToken = none ∧ v.verificationExpires = none := by
    rw [hst3]
    intro v hv hvid
    rcases mem_saveUser hv with rfl | ⟨_, hvuid⟩
    · exact ⟨rfl, rfl⟩
    · exact absurd (hvid.trans hu3uid.symm) hvuid
  have hsecond3 : resetPassword (resetPassword store3 userId3 pw3 hash emailOk4).2
      userId3 pw4 hash emailOk5 =
      (some 400, (resetPassword store3 userId3 pw3 hash emailOk4).2) := by
    have hfind3' : (resetPassword store3 userId3 pw3 hash emailOk4).2.find?
        (fun x => x.uid == userId3) =
        some { u3 with password := hash pw3, verificationToken := none, verificationExpires := none } := by
      rw [hst3]
      exact find?_uid_saveUser store3 _ userId3 hu3uid u3 hf3
    set st3 := (resetPassword store3 userId3 pw3 hash emailOk4).2 with hst3def
    simp only [resetPassword, if_neg hpw4, hfind3']
  exact ⟨hnotc, hold, hsecond, hrefuse, hnull3, hsecond3⟩

/-- Witness for claim C9 on concrete singleton stores: user 1 verifies
with code `111111`, user 2 has a null token and is refused, user 3
resets a password with an issued token and cannot reset again. -/
theorem verification_codes_single_use_witness :
    (∀ v ∈ [UserRec.mk 1 "a" "e" "p" "f" "l" (some 111111) none false],
      ∀ w ∈ [UserRec.mk 1 "a" "e" "p" "f" "l" (some 111111) none false],
        v.verificationToken = some 111111 → w.verificationToken = some 111111 → v = w) ∧
    (verifyAccount [UserRec.mk 1 "a" "e" "p" "f" "l" (some 111111) none false]
      (some 111111) 0 true).1 = 200 ∧
    (resetPassword [UserRec.mk 3 "a3" "e3" "p3" "f3" "l3" (some 222222) none false]
      3 "z" id true).1 = some 200 ∧
    ((∀ v ∈ (verifyAccount [UserRec.mk 1 "a" "e" "p" "f" "l" (some 111111) none false]
        (some 111111) 0 true).2, v.verificationToken ≠ some 111111) ∧
    (∀ v ∈ (verifyAccount [UserRec.mk 1 "a" "e" "p" "f" "l" (some 111111) none false]
        (some 111111) 0 true).2,
      (v.isVerified = true ∧ v.verificationToken = none ∧
        v.verificationExpires = none) ∨
        v ∈ [UserRec.mk 1 "a" "e" "p" "f" "l" (some 111111) none false]) ∧
    verifyAccount (verifyAccount [UserRec.mk 1 "a" "e" "p" "f" "l" (some 111111) none false]
        (some 111111) 0 true).2 (some 111111) 0 true =
      (400, (verifyAccount [UserRec.mk 1 "a" "e" "p" "f" "l" (some 111111) none false]
        (some 111111) 0 true).2) ∧
    resetPassword [UserRec.mk 2 "a2" "e2" "p2" "f2" "l2" none none true] 2 "x" id true =
      (some 400, [UserRec.mk 2 "a2" "e2" "p2" "f2" "l2" none none true]) ∧
    (∀ v ∈ (resetPassword [UserRec.mk 3 "a3" "e3" "p3" "f3" "l3" (some 222222) none false]
        3 "z" id true).2, v.uid = 3 →
      v.verificationToken = none ∧ v.verificationExpires = none) ∧
    resetPassword (resetPassword [UserRec.mk 3 "a3" "e3" "p3" "f3" "l3" (some 222222) none false]
        3 "z" id true).2 3 "y" id true =
      (some 400, (resetPassword [UserRec.mk 3 "a3" "e3" "p3" "f3" "l3" (some 222222) none false]
        3 "z" id true).2)) :=
  ⟨by decide, rfl, rfl,
    verification_codes_single_use
      [UserRec.mk 1 "a" "e" "p" "f" "l" (some 111111) none false]
      [UserRec.mk 2 "a2" "e2" "p2" "f2" "l2" none none true]
      [UserRec.mk 3 "a3" "e3" "p3" "f3" "l3" (some 222222) none false]
      111111 0 0 true true true true true 2 3
      (UserRec.mk 2 "a2" "e2" "p2" "f2" "l2" none none true) "x" "z" "y" id
      (by decide) rfl rfl rfl (by decide) (by decide) rfl⟩

/-- Claim C10: in every successful paginated response, `totalPages` is the
ceiling of `total / 10`, `total` is the length of the list being paginated
(the full upstream list for the plain list endpoints; its at-most-50-item
truncation — `min 50 (length)` — for the `/recent` endpoints, hence at
most 50 there), and the `data` array holds at most 10 items. -/
theorem pagination_metadata_consistent (l : List Item) (rawPage : Option Int) :
    ((listPage l rawPage).total = l.length ∧
      (listPage l rawPage).totalPages = ⌈((listPage l rawPage).total : ℚ) / 10⌉₊ ∧
      (listPage l rawPage).data.length ≤ 10) ∧
    ((vodsRecentPage l rawPage).total = (jsSlice (sortByAddedDesc l) 0 50).length ∧
      (vodsRecentPage l rawPage).total = min 50 l.length ∧
      (vodsRecentPage l rawPage).total ≤ 50 ∧
      (vodsRecentPage l rawPage).totalPages =
        ⌈((vodsRecentPage l rawPage).total : ℚ) / 10⌉₊ ∧
      (vodsRecentPage l rawPage).data.length ≤ 10) ∧
    ((seriesRecentPage l rawPage).total = (jsSlice l 0 50).length ∧
      (seriesRecentPage l rawPage).total = min 50 l.length ∧
      (seriesRecentPage l rawPage).total ≤ 50 ∧
      (seriesRecentPage l rawPage).totalPages =
        ⌈((seriesRecentPage l rawPage).total : ℚ) / 10⌉₊ ∧
      (seriesRecentPage l rawPage).data.length ≤ 10) ∧
    ((liveRecentPage l rawPage).total = (jsSlice l 0 50).length ∧
      (liveRecentPage l rawPage).total = min 50 l.length ∧
      (liveRecentPage l rawPage).total ≤ 50 ∧
      (liveRecentPage l rawPage).totalPages =
        ⌈((liveRecentPage l rawPage).total : ℚ) / 10⌉₊ ∧
      (liveRecentPage l rawPage).data.length ≤ 10) := by
  have h50 : ∀ m : List Item, (jsSlice m 0 50).length = min 50 m.length := by
    intro m
    rw [length_jsSlice, sliceStart_of_nonneg _ _ (by norm_num),
      sliceStop_of_nonneg _ _ (by norm_num)]
    omega
  have hsortlen : (sortByAddedDesc l).length = l.length :=
    (perm_sortByAddedDesc l).length_eq
  refine ⟨⟨rfl, ceilDiv10_eq_ceil _, length_pageData_le _ _⟩,
    ⟨rfl, ?_, ?_, ceilDiv10_eq_ceil _, length_pageData_le _ _⟩,
    ⟨rfl, ?_, ?_, ceilDiv10_eq_ceil _, length_pageData_le _ _⟩,
    ⟨rfl, ?_, ?_, ceilDiv10_eq_ceil _, length_pageData_le _ _⟩⟩
  · show (jsSlice (sortByAddedDesc l) 0 50).length = min 50 l.length
    rw [h50, hsortlen]
  · show (jsSlice (sortByAddedDesc l) 0 50).length ≤ 50
    rw [h50, hsortlen]
    omega
  · show (jsSlice l 0 50).length = min 50 l.length
    exact h50 l
  · show (jsSlice l 0 50).length ≤ 50
    rw [h50]
    omega
  · show (jsSlice l 0 50).length = min 50 l.length
    exact h50 l
  · show (jsSlice l 0 50).length ≤ 50
    rw [h50]
    omega
